import Mathlib

/-!
A shallow embedding of the quota-and-rate-limit gate of the summarization
service in `src/Main.py` (FastAPI endpoint `/resume`), together with proofs
of its behavioural properties.

Modelling conventions:
* Timestamps (`time.time()` floats) are modelled as rationals `ℚ`.
* Calendar dates (`date.today()`) are modelled as natural numbers; the single
  parameter `today` stands for both calls to `date.today()` (the process is
  modelled sequentially, so both calls return the same day).
* The MySQL `users` table is a `List UserRecord`; `SELECT ... WHERE c=%s`
  with `fetchone` is `List.find?`, and `UPDATE ... WHERE id=%s` maps the
  update over every row whose `id` matches.
* `HTTPException` raising is modelled with `Except ApiError`; a raise before
  any `UPDATE` leaves the store unchanged.
* Python truthiness: `if not x_api_key` is true for `None` and `""`;
  `if u["last_request_time"] and ...` skips the rate check when the stored
  timestamp is `NULL` **or** `0.0` (a zero float is falsy).
-/

/-- A row of the `users` table (`SELECT * FROM users`). -/
structure UserRecord where
  id : Nat
  api_key : String
  plan : String
  requests_today : Nat
  last_request_date : Option Nat
  last_request_time : Option ℚ
deriving Repr, DecidableEq

/-- The distinct failure kinds raised by the service:
`HTTPException(401, "Clé API manquante")`, `HTTPException(401, "Clé API invalide")`,
`HTTPException(429, "Trop de requêtes...")`, `HTTPException(429, "Quota journalier...")`,
and a downstream summarization failure (propagates as a generic 500). -/
inductive ApiError where
  | missingKey
  | invalidKey
  | rateLimited
  | quotaExceeded
  | summarizationError
deriving Repr, DecidableEq

/-- HTTP status code of each failure. -/
def ApiError.status : ApiError → Nat
  | .missingKey => 401
  | .invalidKey => 401
  | .rateLimited => 429
  | .quotaExceeded => 429
  | .summarizationError => 500

/-- The `detail` string carried by each failure (the summarization failure has
no `detail`; FastAPI renders it as a generic internal server error). -/
def ApiError.detail : ApiError → String
  | .missingKey => "Clé API manquante"
  | .invalidKey => "Clé API invalide"
  | .rateLimited => "Trop de requêtes, attendez 1 seconde."
  | .quotaExceeded => "Quota journalier atteint. Passez au plan PRO."
  | .summarizationError => "Internal Server Error"

/-- `DAILY_LIMIT = 20  # quota gratuit` -/
def DAILY_LIMIT : Nat := 20

/-- `get_user_from_db`: `SELECT * FROM users WHERE api_key=%s`, `fetchone`,
401 `"Clé API invalide"` when no row matches. Pure lookup, no mutation. -/
def get_user_from_db (db : List UserRecord) (api_key : String) :
    Except ApiError UserRecord :=
  match db.find? (fun u => u.api_key == api_key) with
  | some u => .ok u
  | none => .error .invalidKey

/-- The rate-limit test of `update_user_usage`:
`if u["last_request_time"] and now_ts - float(u["last_request_time"]) < 1`.
A `NULL` (`none`) or zero stored timestamp is falsy, so the check is skipped. -/
def rateLimitHit (lrt : Option ℚ) (now : ℚ) : Bool :=
  match lrt with
  | none => false
  | some t => t != 0 && decide (now - t < 1)

/-- `update_user_usage(user_id)`: re-reads the row by `id`, raises 429
`"Trop de requêtes..."` when the last accepted request is less than one
second old, otherwise runs one of the two `UPDATE` statements (reset to 1 on
a new day, increment otherwise) and commits.

If no row has this `id` the source would raise an unhandled `TypeError`
(`u` is `None`); that path is unreachable from `verify_api_key`, which passes
the `id` of a row just found in the store, and is modelled as a no-op. -/
def update_user_usage (db : List UserRecord) (user_id : Nat) (today : Nat)
    (now : ℚ) : Except ApiError (List UserRecord) :=
  match db.find? (fun u => u.id == user_id) with
  | none => .ok db
  | some u =>
    if rateLimitHit u.last_request_time now then
      .error .rateLimited
    else if u.last_request_date ≠ some today then
      .ok (db.map (fun v => if v.id == user_id then
        { v with requests_today := 1, last_request_date := some today,
                 last_request_time := some now } else v))
    else
      .ok (db.map (fun v => if v.id == user_id then
        { v with requests_today := v.requests_today + 1,
                 last_request_time := some now } else v))

/-- The in-handler lazy reset of `verify_api_key`: inside the `free`-plan
branch, `user["requests_today"] = 0` when `last_request_date != today`
(a local mutation of the fetched dict, not written to the store). -/
def lazyReset (user : UserRecord) (today : Nat) : UserRecord :=
  if user.plan = "free" ∧ user.last_request_date ≠ some today then
    { user with requests_today := 0 }
  else user

/-- The gate evaluated on an already-fetched record: the `free`-plan daily
quota check of `verify_api_key` followed by `update_user_usage` (which
performs the rate-limit check and the commit). This is the spec's
`admitGate(record, now)`; note the source evaluates the quota *before* the rate
limit. -/
def admitGate (db : List UserRecord) (user : UserRecord) (today : Nat) (now : ℚ) :
    Except ApiError (List UserRecord) :=
  let u := lazyReset user today
  if u.plan = "free" ∧ DAILY_LIMIT ≤ u.requests_today then
    .error .quotaExceeded
  else
    update_user_usage db u.id today now

/-- The store state after an `admitGate` call: unchanged when the call raised
(no `UPDATE` was executed before the raise), the committed store otherwise. -/
def admitState (db : List UserRecord) (user : UserRecord) (today : Nat)
    (now : ℚ) : List UserRecord :=
  match admitGate db user today now with
  | .ok db2 => db2
  | .error _ => db

/-- `verify_api_key(x_api_key)`: 401 on a missing/empty header, record lookup
(401 when absent), then the gate. Returns the fetched (locally lazy-reset)
user dict, paired here with the updated store. -/
def verify_api_key (db : List UserRecord) (x_api_key : Option String)
    (today : Nat) (now : ℚ) :
    Except ApiError (UserRecord × List UserRecord) :=
  match x_api_key with
  | none => .error .missingKey
  | some key =>
    if key = "" then .error .missingKey
    else
      match get_user_from_db db key with
      | .error e => .error e
      | .ok user =>
        match admitGate db user today now with
        | .error e => .error e
        | .ok db2 => .ok (lazyReset user today, db2)

/-- The spec's `effective_requests_today`: the stored counter when the stored
date is today, else 0 (lazy reset, §3 of the spec). -/
def effective_requests_today (u : UserRecord) (today : Nat) : Nat :=
  if u.last_request_date = some today then u.requests_today else 0

/-- The committed row of an accepted request, as written by the two `UPDATE`
statements of `update_user_usage`: reset the counter to 1 and stamp the date
on a new day, increment the counter otherwise; either way record `now`. -/
def commitRow (u : UserRecord) (today : Nat) (now : ℚ) : UserRecord :=
  if u.last_request_date ≠ some today then
    { u with requests_today := 1, last_request_date := some today,
             last_request_time := some now }
  else
    { u with requests_today := u.requests_today + 1,
             last_request_time := some now }

/-- Request body of `POST /resume` (`class TexteReq`). -/
structure TexteReq where
  content : String
  max_length : Nat := 130
  min_length : Nat := 30
deriving Repr, DecidableEq

/-- Success payload of `POST /resume`. -/
structure RespOk where
  user_id : Nat
  plan : String
  summary : String
deriving Repr, DecidableEq

deriving instance DecidableEq for Except

/-- The `/resume` endpoint (`resumage`): FastAPI resolves the
`Depends(verify_api_key)` dependency first, then the handler calls the
summarizer (`SUMMARIZER(...)`), an external collaborator modelled as a
function returning `none` on a `SummarizationError`. The result is paired
with the final state of the store: unchanged when the gate raised, the
committed store otherwise (a summarization failure happens after the commit
and runs no further SQL). -/
def resumage (summarizer : String → Nat → Nat → Option String)
    (db : List UserRecord) (x_api_key : Option String) (req : TexteReq)
    (today : Nat) (now : ℚ) : Except ApiError RespOk × List UserRecord :=
  match verify_api_key db x_api_key today now with
  | .error e => (.error e, db)
  | .ok (user, db2) =>
    match summarizer req.content req.max_length req.min_length with
    | none => (.error .summarizationError, db2)
    | some s => (.ok ⟨user.id, user.plan, s⟩, db2)

/-- Sequential requests from one client: run `verify_api_key` for each
timestamp in turn against the evolving store (a rejected request leaves the
store as it was). Returns the per-request outcomes and the final store. -/
def runSeq (key : String) (today : Nat) :
    List ℚ → List UserRecord → List (Except ApiError Unit) × List UserRecord
  | [], db => ([], db)
  | now :: rest, db =>
    match verify_api_key db (some key) today now with
    | .error e => let p := runSeq key today rest db; (.error e :: p.1, p.2)
    | .ok (_, db2) => let p := runSeq key today rest db2; (.ok () :: p.1, p.2)

/-!
Helper lemmas shared by the claim theorems. Batteries marks the rational
arithmetic operations irreducible; they are made semireducible here so that
concrete gate runs can be evaluated by `decide`.
-/

attribute [local semireducible] Rat.sub Rat.add Rat.mul Rat.inv

theorem lazyReset_id (u : UserRecord) (today : Nat) :
    (lazyReset u today).id = u.id := by
  unfold lazyReset; split <;> rfl

theorem lazyReset_plan (u : UserRecord) (today : Nat) :
    (lazyReset u today).plan = u.plan := by
  unfold lazyReset; split <;> rfl

theorem lazyReset_rt_free (u : UserRecord) (today : Nat) (h : u.plan = "free") :
    (lazyReset u today).requests_today = effective_requests_today u today := by
  unfold lazyReset effective_requests_today
  by_cases hd : u.last_request_date = some today <;> simp [h, hd]

theorem lazyReset_of_not_free (u : UserRecord) (today : Nat)
    (h : u.plan ≠ "free") : lazyReset u today = u := by
  unfold lazyReset
  simp [h]

/-- `update_user_usage` never raises the quota error. -/
theorem update_no_quota (db : List UserRecord) (i : Nat) (today : Nat)
    (now : ℚ) : update_user_usage db i today now ≠ .error .quotaExceeded := by
  unfold update_user_usage
  rcases h : db.find? (fun u => u.id == i) with - | u <;> simp only [h]
  · simp
  · split
    · simp
    · split <;> simp

/-- The conditions of the in-handler quota test, restated through
`effective_requests_today`. -/
theorem quota_cond_iff (u : UserRecord) (today : Nat) :
    ((lazyReset u today).plan = "free" ∧
        DAILY_LIMIT ≤ (lazyReset u today).requests_today) ↔
      (u.plan = "free" ∧ DAILY_LIMIT ≤ effective_requests_today u today) := by
  constructor
  · rintro ⟨h1, h2⟩
    have hp : u.plan = "free" := by rwa [lazyReset_plan] at h1
    exact ⟨hp, by rwa [lazyReset_rt_free u today hp] at h2⟩
  · rintro ⟨h1, h2⟩
    exact ⟨by rwa [lazyReset_plan], by rwa [lazyReset_rt_free u today h1]⟩

/-- `admitGate` rejects with the quota error exactly on a FREE plan whose
effective counter has reached the limit. -/
theorem admit_quota_iff (db : List UserRecord) (u : UserRecord) (today : Nat)
    (now : ℚ) :
    admitGate db u today now = .error .quotaExceeded ↔
      (u.plan = "free" ∧ DAILY_LIMIT ≤ effective_requests_today u today) := by
  by_cases hc : (lazyReset u today).plan = "free" ∧
      DAILY_LIMIT ≤ (lazyReset u today).requests_today
  · simp only [admitGate, if_pos hc]
    exact ⟨fun _ => (quota_cond_iff u today).mp hc, fun _ => trivial⟩
  · simp only [admitGate, if_neg hc]
    constructor
    · intro hbad
      exact absurd hbad (update_no_quota db (lazyReset u today).id today now)
    · intro hr
      exact absurd ((quota_cond_iff u today).mpr hr) hc

/-- When the quota test does not fire, `admitGate` is exactly
`update_user_usage` on the record's id. -/
theorem admit_of_quota_pass (db : List UserRecord) (u : UserRecord)
    (today : Nat) (now : ℚ)
    (h : ¬(u.plan = "free" ∧ DAILY_LIMIT ≤ effective_requests_today u today)) :
    admitGate db u today now = update_user_usage db u.id today now := by
  have hc : ¬((lazyReset u today).plan = "free" ∧
      DAILY_LIMIT ≤ (lazyReset u today).requests_today) :=
    fun hcc => h ((quota_cond_iff u today).mp hcc)
  simp only [admitGate, if_neg hc, lazyReset_id]

theorem rateLimitHit_some_iff (t now : ℚ) :
    rateLimitHit (some t) now = true ↔ (t ≠ 0 ∧ now - t < 1) := by
  simp [rateLimitHit]

theorem rateLimitHit_none (now : ℚ) : rateLimitHit none now = false := rfl

/-- A sub-second repeat request is refused by `update_user_usage` with the
rate-limit error, before any `UPDATE` runs. -/
theorem update_rate_reject (db : List UserRecord) (i : Nat) (today : Nat)
    (now : ℚ) (u : UserRecord)
    (hfind : db.find? (fun v => v.id == i) = some u)
    (hrate : rateLimitHit u.last_request_time now = true) :
    update_user_usage db i today now = .error .rateLimited := by
  unfold update_user_usage
  simp only [hfind, hrate, if_true]

/-- Accepted request on a new day: `update_user_usage` runs the resetting
`UPDATE` on every row with the caller's id. -/
theorem update_accept_newday (db : List UserRecord) (i : Nat) (today : Nat)
    (now : ℚ) (u : UserRecord)
    (hfind : db.find? (fun v => v.id == i) = some u)
    (hrate : rateLimitHit u.last_request_time now = false)
    (hday : u.last_request_date ≠ some today) :
    update_user_usage db i today now =
      .ok (db.map (fun v => if v.id == i then
        { v with requests_today := 1, last_request_date := some today,
                 last_request_time := some now } else v)) := by
  unfold update_user_usage
  simp only [hfind, hrate, Bool.false_eq_true, if_false]
  rw [if_pos hday]

/-- Accepted request on the stored day: `update_user_usage` runs the
incrementing `UPDATE` on every row with the caller's id. -/
theorem update_accept_sameday (db : List UserRecord) (i : Nat) (today : Nat)
    (now : ℚ) (u : UserRecord)
    (hfind : db.find? (fun v => v.id == i) = some u)
    (hrate : rateLimitHit u.last_request_time now = false)
    (hday : u.last_request_date = some today) :
    update_user_usage db i today now =
      .ok (db.map (fun v => if v.id == i then
        { v with requests_today := v.requests_today + 1,
                 last_request_time := some now } else v)) := by
  unfold update_user_usage
  simp only [hfind, hrate, Bool.false_eq_true, if_false, hday]
  simp

/-- Looking up by id after an id-preserving per-row update finds the updated
row. -/
theorem find_map_id (db : List UserRecord) (i : Nat)
    (f : UserRecord → UserRecord) (hf : ∀ v, (f v).id = v.id)
    (u : UserRecord) (h : db.find? (fun v => v.id == i) = some u) :
    (db.map (fun v => if v.id == i then f v else v)).find?
      (fun v => v.id == i) = some (f u) := by
  induction db with
  | nil => simp at h
  | cons a as ih =>
    rw [List.find?_cons] at h
    by_cases ha : (a.id == i) = true
    · simp only [ha] at h
      obtain rfl : a = u := by injection h
      simp only [List.map_cons, ha, eq_self_iff_true, if_true,
        List.find?_cons, hf a]
    · rw [Bool.not_eq_true] at ha
      simp only [ha] at h
      simp only [List.map_cons, ha, Bool.false_eq_true, if_false,
        List.find?_cons]
      exact ih h

/-- A missing `X-API-Key` header is refused before any lookup. -/
theorem verify_none_key (db : List UserRecord) (today : Nat) (now : ℚ) :
    verify_api_key db none today now = .error .missingKey := rfl

/-- An empty `X-API-Key` header is falsy in Python and refused the same way. -/
theorem verify_empty_key (db : List UserRecord) (today : Nat) (now : ℚ) :
    verify_api_key db (some "") today now = .error .missingKey := by
  simp [verify_api_key]

/-- A key matching no row is refused with the invalid-key error. -/
theorem verify_unknown_key (db : List UserRecord) (key : String) (today : Nat)
    (now : ℚ) (hk : key ≠ "")
    (hfind : db.find? (fun v => v.api_key == key) = none) :
    verify_api_key db (some key) today now = .error .invalidKey := by
  unfold verify_api_key get_user_from_db
  simp only [hfind, if_neg hk]

/-- With the caller's row found, `verify_api_key` is the gate on that row. -/
theorem verify_found (db : List UserRecord) (key : String) (today : Nat)
    (now : ℚ) (u : UserRecord) (hk : key ≠ "")
    (hfind : db.find? (fun v => v.api_key == key) = some u) :
    verify_api_key db (some key) today now =
      match admitGate db u today now with
      | .error e => .error e
      | .ok db2 => .ok (lazyReset u today, db2) := by
  unfold verify_api_key get_user_from_db
  simp only [hfind, if_neg hk]

theorem find_single_api_key (u : UserRecord) (key : String)
    (hk : u.api_key = key) :
    [u].find? (fun v => v.api_key == key) = some u := by
  simp [List.find?_cons, hk]

theorem find_single_id (u : UserRecord) :
    [u].find? (fun v => v.id == u.id) = some u := by
  simp [List.find?_cons]

/-- One accepted request against a single-row store: the gate allows and the
store holds the committed row. -/
theorem verify_single_accept (u : UserRecord) (key : String) (today : Nat)
    (now : ℚ) (hk : u.api_key = key) (hne : key ≠ "")
    (hq : ¬(u.plan = "free" ∧ DAILY_LIMIT ≤ effective_requests_today u today))
    (hr : rateLimitHit u.last_request_time now = false) :
    verify_api_key [u] (some key) today now =
      .ok (lazyReset u today, [commitRow u today now]) := by
  rw [verify_found [u] key today now u hne (find_single_api_key u key hk)]
  rw [admit_of_quota_pass [u] u today now hq]
  by_cases hday : u.last_request_date = some today
  · rw [update_accept_sameday [u] u.id today now u (find_single_id u) hr hday]
    simp [commitRow, hday]
  · rw [update_accept_newday [u] u.id today now u (find_single_id u) hr hday]
    simp [commitRow, hday]

/-- One over-quota request against a single-row store is refused with the
quota error. -/
theorem verify_single_quota (u : UserRecord) (key : String) (today : Nat)
    (now : ℚ) (hk : u.api_key = key) (hne : key ≠ "")
    (hq : u.plan = "free" ∧ DAILY_LIMIT ≤ effective_requests_today u today) :
    verify_api_key [u] (some key) today now = .error .quotaExceeded := by
  rw [verify_found [u] key today now u hne (find_single_api_key u key hk)]
  rw [(admit_quota_iff [u] u today now).mpr hq]

/-- One sub-second repeat request against a single-row store (quota passing)
is refused with the rate-limit error. -/
theorem verify_single_rate (u : UserRecord) (key : String) (today : Nat)
    (now : ℚ) (hk : u.api_key = key) (hne : key ≠ "")
    (hq : ¬(u.plan = "free" ∧ DAILY_LIMIT ≤ effective_requests_today u today))
    (hr : rateLimitHit u.last_request_time now = true) :
    verify_api_key [u] (some key) today now = .error .rateLimited := by
  rw [verify_found [u] key today now u hne (find_single_api_key u key hk)]
  rw [admit_of_quota_pass [u] u today now hq]
  rw [update_rate_reject [u] u.id today now u (find_single_id u) hr]

/-- All-accepted sequential requests on the stored day, against a single-row
store: the counter grows by the number of requests and the stored timestamp
is the last request's. -/
theorem runSeq_sameday (key : String) (today : Nat) (hne : key ≠ "") :
    ∀ (ts : List ℚ) (u : UserRecord), u.api_key = key →
      u.last_request_date = some today →
      (∀ r ∈ (runSeq key today ts [u]).1, r = .ok ()) →
      ∃ u', (runSeq key today ts [u]).2 = [u'] ∧
        u'.api_key = key ∧ u'.last_request_date = some today ∧
        u'.requests_today = u.requests_today + ts.length ∧
        u'.last_request_time =
          (if ts.isEmpty then u.last_request_time else ts.getLast?) := by
  intro ts
  induction ts with
  | nil =>
    intro u hk hd _
    exact ⟨u, rfl, hk, hd, rfl, rfl⟩
  | cons now rest ih =>
    intro u hk hd hall
    by_cases hq : u.plan = "free" ∧
        DAILY_LIMIT ≤ effective_requests_today u today
    · exfalso
      have hv := verify_single_quota u key today now hk hne hq
      have hmem : (Except.error ApiError.quotaExceeded : Except ApiError Unit)
          ∈ (runSeq key today (now :: rest) [u]).1 := by
        simp only [runSeq, hv]
        exact List.mem_cons_self _ _
      exact absurd (hall _ hmem) (by simp)
    · by_cases hr : rateLimitHit u.last_request_time now = true
      · exfalso
        have hv := verify_single_rate u key today now hk hne hq hr
        have hmem : (Except.error ApiError.rateLimited : Except ApiError Unit)
            ∈ (runSeq key today (now :: rest) [u]).1 := by
          simp only [runSeq, hv]
          exact List.mem_cons_self _ _
        exact absurd (hall _ hmem) (by simp)
      · rw [Bool.not_eq_true] at hr
        have hv := verify_single_accept u key today now hk hne hq hr
        have hcr : commitRow u today now =
            { u with requests_today := u.requests_today + 1,
                     last_request_time := some now } := by
          simp [commitRow, hd]
        have hall' : ∀ r ∈ (runSeq key today rest
            [{ u with requests_today := u.requests_today + 1,
                      last_request_time := some now }]).1, r = .ok () := by
          intro r hrm
          apply hall
          simp only [runSeq, hv, hcr]
          exact List.mem_cons_of_mem _ hrm
        obtain ⟨u', h2, hk', hd', hrt', hlt'⟩ :=
          ih { u with requests_today := u.requests_today + 1,
                      last_request_time := some now } hk hd hall'
        refine ⟨u', ?_, hk', hd', ?_, ?_⟩
        · simp only [runSeq, hv, hcr]
          exact h2
        · rw [hrt']
          simp only [List.length_cons]
          omega
        · rw [hlt']
          rcases rest with - | ⟨r0, rs⟩
          · simp
          · simp [List.getLast?_cons_cons]

/-- All-accepted sequential requests starting from a record whose stored date
is not today: the first accept resets the counter to 1, so the final counter
equals the number of requests and the stored timestamp is the last one. -/
theorem runSeq_freshday (key : String) (today : Nat) (hne : key ≠ "")
    (ts : List ℚ) (u : UserRecord) (hk : u.api_key = key)
    (hd : u.last_request_date ≠ some today) (hts : ts ≠ [])
    (hall : ∀ r ∈ (runSeq key today ts [u]).1, r = .ok ()) :
    ∃ u', (runSeq key today ts [u]).2 = [u'] ∧
      u'.requests_today = ts.length ∧
      u'.last_request_time = ts.getLast? ∧
      u'.last_request_date = some today := by
  rcases ts with - | ⟨now, rest⟩
  · exact absurd rfl hts
  · have hq : ¬(u.plan = "free" ∧
        DAILY_LIMIT ≤ effective_requests_today u today) := by
      simp [effective_requests_today, hd, DAILY_LIMIT]
    by_cases hr : rateLimitHit u.last_request_time now = true
    · exfalso
      have hv := verify_single_rate u key today now hk hne hq hr
      have hmem : (Except.error ApiError.rateLimited : Except ApiError Unit)
          ∈ (runSeq key today (now :: rest) [u]).1 := by
        simp only [runSeq, hv]
        exact List.mem_cons_self _ _
      exact absurd (hall _ hmem) (by simp)
    · rw [Bool.not_eq_true] at hr
      have hv := verify_single_accept u key today now hk hne hq hr
      have hcr : commitRow u today now =
          ⟨u.id, u.api_key, u.plan, 1, some today, some now⟩ := by
        simp [commitRow, hd]
      have hall' : ∀ r ∈ (runSeq key today rest
          [(⟨u.id, u.api_key, u.plan, 1, some today, some now⟩ :
            UserRecord)]).1, r = .ok () := by
        intro r hrm
        apply hall
        simp only [runSeq, hv, hcr]
        exact List.mem_cons_of_mem _ hrm
      obtain ⟨u', h2, -, hd', hrt', hlt'⟩ :=
        runSeq_sameday key today hne rest
          ⟨u.id, u.api_key, u.plan, 1, some today, some now⟩ hk rfl hall'
      refine ⟨u', ?_, ?_, ?_, hd'⟩
      · simp only [runSeq, hv, hcr]
        exact h2
      · rw [hrt']
        simp only [List.length_cons]
        omega
      · rw [hlt']
        rcases rest with - | ⟨r0, rs⟩
        · simp
        · simp [List.getLast?_cons_cons]

/-- Summarizer stub that always succeeds (external collaborator input). -/
def alwaysSummarize : String → Nat → Nat → Option String :=
  fun _ _ _ => some "résumé"

/-- Summarizer stub that always fails with a SummarizationError. -/
def failSummarize : String → Nat → Nat → Option String :=
  fun _ _ _ => none

/-- C1 (counterexample): a FREE record at the quota with a sub-second-old
last request is rejected with `quotaExceeded`, not `rateLimited` — the source
evaluates the daily quota before the rate limit, contradicting the claimed
order. -/
theorem rate_limit_first_cex :
    effective_requests_today ⟨1, "k", "free", 20, some 5, some 10⟩ 5 = 20 ∧
    ((21 : ℚ)/2 - 10 < 1) ∧
    admitGate [⟨1, "k", "free", 20, some 5, some 10⟩]
        ⟨1, "k", "free", 20, some 5, some 10⟩ 5 (21/2) ≠
      Except.error ApiError.rateLimited ∧
    admitGate [⟨1, "k", "free", 20, some 5, some 10⟩]
        ⟨1, "k", "free", 20, some 5, some 10⟩ 5 (21/2) =
      Except.error ApiError.quotaExceeded :=
  ⟨by decide, by decide, by decide, by decide⟩

/-- C1 (amended): `admitGate` evaluates the daily quota *before* the rate limit,
and the first failing check wins: a FREE-plan record whose
`effective_requests_today` is at least 20 and whose `last_request_time` is
less than 1 second before `now` is rejected with `quotaExceeded`, not
`rateLimited`. -/
theorem quota_evaluated_before_rate_limit (db : List UserRecord)
    (u : UserRecord) (today : Nat) (now t : ℚ)
    (hplan : u.plan = "free")
    (hq : DAILY_LIMIT ≤ effective_requests_today u today)
    (hlrt : u.last_request_time = some t) (hlt : now - t < 1) :
    admitGate db u today now = Except.error ApiError.quotaExceeded ∧
    admitGate db u today now ≠ Except.error ApiError.rateLimited := by
  have h := (admit_quota_iff db u today now).mpr ⟨hplan, hq⟩
  exact ⟨h, by rw [h]; simp⟩

theorem quota_evaluated_before_rate_limit_witness :
    admitGate [⟨1, "kw1", "free", 20, some 5, some 10⟩]
        ⟨1, "kw1", "free", 20, some 5, some 10⟩ 5 (21/2) =
      Except.error ApiError.quotaExceeded ∧
    admitGate [⟨1, "kw1", "free", 20, some 5, some 10⟩]
        ⟨1, "kw1", "free", 20, some 5, some 10⟩ 5 (21/2) ≠
      Except.error ApiError.rateLimited :=
  quota_evaluated_before_rate_limit _ ⟨1, "kw1", "free", 20, some 5, some 10⟩
    5 (21/2) 10 rfl (by decide) rfl (by decide)

/-- C2 (counterexample): a record with `last_request_time` present and
`now - last_request_time = 0 < 1s` for which `admitGate` does *not* return
`rateLimited` (the quota check fires first), refuting the claimed
equivalence. -/
theorem rateLimited_iff_cex :
    (⟨2, "kb", "free", 25, some 9, some 100⟩ :
      UserRecord).last_request_time = some 100 ∧
    ((100 : ℚ) - 100 < 1) ∧
    admitGate [⟨2, "kb", "free", 25, some 9, some 100⟩]
        ⟨2, "kb", "free", 25, some 9, some 100⟩ 9 100 ≠
      Except.error ApiError.rateLimited :=
  ⟨rfl, by decide, by decide⟩

/-- C2 (amended): for a record that passes the daily-quota check, whose row
is the one the update re-reads, and whose stored timestamp is present and
nonzero (the source treats a `0.0` timestamp as absent), `admitGate` rejects
with `rateLimited` iff `now - last_request_time` is strictly less than 1
second — an elapsed time of exactly 1.000 s is allowed — and on that
rejection the stored record is not mutated. -/
theorem rateLimited_iff_sub_second (db : List UserRecord) (u : UserRecord)
    (today : Nat) (now t : ℚ)
    (hfind : db.find? (fun v => v.id == u.id) = some u)
    (hlrt : u.last_request_time = some t) (ht0 : t ≠ 0)
    (hq : ¬(u.plan = "free" ∧
      DAILY_LIMIT ≤ effective_requests_today u today)) :
    ((admitGate db u today now = Except.error ApiError.rateLimited) ↔
      now - t < 1) ∧
    (admitGate db u today now = Except.error ApiError.rateLimited →
      admitState db u today now = db) := by
  constructor
  · rw [admit_of_quota_pass db u today now hq]
    by_cases hlt : now - t < 1
    · rw [update_rate_reject db u.id today now u hfind
        (by rw [hlrt]; exact (rateLimitHit_some_iff t now).mpr ⟨ht0, hlt⟩)]
      simp [hlt]
    · have hrf : rateLimitHit u.last_request_time now = false := by
        rw [hlrt, Bool.eq_false_iff]
        intro hcontra
        exact hlt ((rateLimitHit_some_iff t now).mp hcontra).2
      by_cases hday : u.last_request_date = some today
      · rw [update_accept_sameday db u.id today now u hfind hrf hday]
        simp [hlt]
      · rw [update_accept_newday db u.id today now u hfind hrf hday]
        simp [hlt]
  · intro h
    simp only [admitState, h]

theorem rateLimited_iff_sub_second_witness :
    ((admitGate [⟨3, "kc", "pro", 3, some 4, some 10⟩]
        ⟨3, "kc", "pro", 3, some 4, some 10⟩ 4 11 =
      Except.error ApiError.rateLimited) ↔ ((11 : ℚ) - 10 < 1)) ∧
    (admitGate [⟨3, "kc", "pro", 3, some 4, some 10⟩]
        ⟨3, "kc", "pro", 3, some 4, some 10⟩ 4 11 =
      Except.error ApiError.rateLimited →
      admitState [⟨3, "kc", "pro", 3, some 4, some 10⟩]
        ⟨3, "kc", "pro", 3, some 4, some 10⟩ 4 11 =
      [⟨3, "kc", "pro", 3, some 4, some 10⟩]) :=
  rateLimited_iff_sub_second [⟨3, "kc", "pro", 3, some 4, some 10⟩]
    ⟨3, "kc", "pro", 3, some 4, some 10⟩ 4 11 10
    (by decide) rfl (by decide) (by decide)

/-- C5: a PRO-plan record is never rejected with the quota error, whatever
its counter; with its row in the store and the rate limit passing, the
request is admitted. -/
theorem pro_plan_never_quotaExceeded (db : List UserRecord) (u : UserRecord)
    (today : Nat) (now : ℚ) (hplan : u.plan = "pro") :
    admitGate db u today now ≠ Except.error ApiError.quotaExceeded ∧
    (db.find? (fun v => v.id == u.id) = some u →
      rateLimitHit u.last_request_time now = false →
      ∃ db2, admitGate db u today now = Except.ok db2) := by
  have hnf : u.plan ≠ "free" := by rw [hplan]; decide
  constructor
  · intro hbad
    exact hnf ((admit_quota_iff db u today now).mp hbad).1
  · intro hfind hr
    rw [admit_of_quota_pass db u today now (fun hc => hnf hc.1)]
    by_cases hday : u.last_request_date = some today
    · exact ⟨_, update_accept_sameday db u.id today now u hfind hr hday⟩
    · exact ⟨_, update_accept_newday db u.id today now u hfind hr hday⟩

theorem pro_plan_never_quotaExceeded_witness :
    admitGate [⟨5, "ke", "pro", 1000, some 3, some 10⟩]
        ⟨5, "ke", "pro", 1000, some 3, some 10⟩ 3 20 ≠
      Except.error ApiError.quotaExceeded ∧
    ∃ db2, admitGate [⟨5, "ke", "pro", 1000, some 3, some 10⟩]
        ⟨5, "ke", "pro", 1000, some 3, some 10⟩ 3 20 = Except.ok db2 :=
  ⟨(pro_plan_never_quotaExceeded [⟨5, "ke", "pro", 1000, some 3, some 10⟩]
      ⟨5, "ke", "pro", 1000, some 3, some 10⟩ 3 20 rfl).1,
   (pro_plan_never_quotaExceeded [⟨5, "ke", "pro", 1000, some 3, some 10⟩]
      ⟨5, "ke", "pro", 1000, some 3, some 10⟩ 3 20 rfl).2
     (by decide) (by decide)⟩

/-- C10: the daily-quota check is gated on the plan string being exactly
`"free"`; for any other plan value (`"FREE"`, `"Free"`, `"pro"`, arbitrary)
`admitGate` never returns the quota error. -/
theorem quota_only_for_exact_free_string (db : List UserRecord)
    (u : UserRecord) (today : Nat) (now : ℚ) (h : u.plan ≠ "free") :
    admitGate db u today now ≠ Except.error ApiError.quotaExceeded := by
  intro hbad
  exact h ((admit_quota_iff db u today now).mp hbad).1

theorem quota_only_for_exact_free_string_witness :
    admitGate [⟨4, "kd", "FREE", 1000, some 2, none⟩]
        ⟨4, "kd", "FREE", 1000, some 2, none⟩ 2 50 ≠
      Except.error ApiError.quotaExceeded :=
  quota_only_for_exact_free_string [⟨4, "kd", "FREE", 1000, some 2, none⟩]
    ⟨4, "kd", "FREE", 1000, some 2, none⟩ 2 50 (by decide)

/-- C3: a FREE-plan record whose effective counter has reached 20 is rejected
with the quota error and the stored record is unchanged; and the scenario: a
fresh FREE user making 21 same-day requests spaced 2 seconds apart gets
exactly 20 `Allow`s and then `quotaExceeded`. -/
theorem free_quota_rejects_and_scenario :
    (∀ (db : List UserRecord) (u : UserRecord) (today : Nat) (now : ℚ),
      u.plan = "free" → DAILY_LIMIT ≤ effective_requests_today u today →
      admitGate db u today now = Except.error ApiError.quotaExceeded ∧
      admitState db u today now = db) ∧
    (runSeq "k" 7 [10, 12, 14, 16, 18, 20, 22, 24, 26, 28, 30, 32, 34, 36,
        38, 40, 42, 44, 46, 48, 50] [⟨1, "k", "free", 0, none, none⟩]).1 =
      List.replicate 20 (Except.ok ()) ++
        [Except.error ApiError.quotaExceeded] := by
  constructor
  · intro db u today now hplan hq
    have h := (admit_quota_iff db u today now).mpr ⟨hplan, hq⟩
    exact ⟨h, by simp only [admitState, h]⟩
  · decide

theorem free_quota_rejects_witness :
    admitGate [⟨7, "kg", "free", 20, some 6, some 10⟩]
        ⟨7, "kg", "free", 20, some 6, some 10⟩ 6 12 =
      Except.error ApiError.quotaExceeded ∧
    admitState [⟨7, "kg", "free", 20, some 6, some 10⟩]
        ⟨7, "kg", "free", 20, some 6, some 10⟩ 6 12 =
      [⟨7, "kg", "free", 20, some 6, some 10⟩] :=
  free_quota_rejects_and_scenario.1 [⟨7, "kg", "free", 20, some 6, some 10⟩]
    ⟨7, "kg", "free", 20, some 6, some 10⟩ 6 12 rfl (by decide)

/-- C4: an accepted request (one that passed both checks) on a record whose
stored date is not today writes `requests_today = 1`,
`last_request_date = today`, `last_request_time = now`, whatever the prior
counter; on the stored day it increments the counter by 1 and records `now`
with the date unchanged. -/
theorem accepted_request_commit_effect (db : List UserRecord)
    (u : UserRecord) (today : Nat) (now : ℚ) (db2 : List UserRecord)
    (hfind : db.find? (fun v => v.id == u.id) = some u)
    (hok : admitGate db u today now = Except.ok db2) :
    (u.last_request_date ≠ some today →
      db2.find? (fun v => v.id == u.id) =
        some ⟨u.id, u.api_key, u.plan, 1, some today, some now⟩) ∧
    (u.last_request_date = some today →
      db2.find? (fun v => v.id == u.id) =
        some { u with requests_today := u.requests_today + 1,
                      last_request_time := some now }) := by
  by_cases hq : u.plan = "free" ∧
      DAILY_LIMIT ≤ effective_requests_today u today
  · rw [(admit_quota_iff db u today now).mpr hq] at hok
    exact absurd hok (by simp)
  · rw [admit_of_quota_pass db u today now hq] at hok
    by_cases hr : rateLimitHit u.last_request_time now = true
    · rw [update_rate_reject db u.id today now u hfind hr] at hok
      exact absurd hok (by simp)
    · rw [Bool.not_eq_true] at hr
      constructor
      · intro hday
        rw [update_accept_newday db u.id today now u hfind hr hday] at hok
        injection hok with hok2
        subst hok2
        exact find_map_id db u.id
          (fun v => { v with requests_today := 1, last_request_date := some today, last_request_time := some now })
          (fun v => rfl) u hfind
      · intro hday
        rw [update_accept_sameday db u.id today now u hfind hr hday] at hok
        injection hok with hok2
        subst hok2
        exact find_map_id db u.id
          (fun v => { v with requests_today := v.requests_today + 1, last_request_time := some now })
          (fun v => rfl) u hfind

theorem accepted_request_commit_effect_witness :
    [(⟨6, "kf", "free", 1, some 5, some 30⟩ : UserRecord)].find?
        (fun v => v.id ==
          (⟨6, "kf", "free", 20, some 4, none⟩ : UserRecord).id) =
      some ⟨(⟨6, "kf", "free", 20, some 4, none⟩ : UserRecord).id,
        "kf", "free", 1, some 5, some 30⟩ :=
  (accepted_request_commit_effect [⟨6, "kf", "free", 20, some 4, none⟩]
      ⟨6, "kf", "free", 20, some 4, none⟩ 5 30
      [⟨6, "kf", "free", 1, some 5, some 30⟩]
      (by decide) (by decide)).1 (by decide)

/-- C6 (counterexample): a user who already has 5 same-day requests on
record makes N = 1 further accepted request the same day; the stored counter
is then 6, not N = 1, refuting the claim for every user. -/
theorem seq_run_count_cex :
    (runSeq "kh" 3 [10] [⟨8, "kh", "free", 5, some 3, none⟩]).1 =
      [Except.ok ()] ∧
    (runSeq "kh" 3 [10] [⟨8, "kh", "free", 5, some 3, none⟩]).2 =
      [⟨8, "kh", "free", 6, some 3, some 10⟩] ∧
    (6 : Nat) ≠ List.length [(10 : ℚ)] :=
  ⟨by decide, by decide, by decide⟩

/-- C6 (amended): for a user whose stored date is not the requests' day
(e.g. a fresh user), after N sequential accepted same-day requests the
stored counter equals N and the stored timestamp is the Nth request's; and
each accepted request's timestamp strictly exceeds the stored (nonzero)
previous one, so `last_request_time` is non-decreasing across accepted
requests. -/
theorem seq_accepted_run_count_and_monotone :
    (∀ (key : String) (today : Nat) (ts : List ℚ) (u : UserRecord),
      key ≠ "" → u.api_key = key → u.last_request_date ≠ some today →
      ts ≠ [] → (∀ r ∈ (runSeq key today ts [u]).1, r = Except.ok ()) →
      ∃ u', (runSeq key today ts [u]).2 = [u'] ∧
        u'.requests_today = ts.length ∧
        u'.last_request_time = ts.getLast?) ∧
    (∀ (db : List UserRecord) (u : UserRecord) (today : Nat) (now t : ℚ)
        (db2 : List UserRecord),
      db.find? (fun v => v.id == u.id) = some u →
      u.last_request_time = some t → t ≠ 0 →
      admitGate db u today now = Except.ok db2 → t < now) := by
  constructor
  · intro key today ts u hne hk hd hts hall
    obtain ⟨u', h1, h2, h3, -⟩ :=
      runSeq_freshday key today hne ts u hk hd hts hall
    exact ⟨u', h1, h2, h3⟩
  · intro db u today now t db2 hfind hlrt ht0 hok
    by_cases hq : u.plan = "free" ∧
        DAILY_LIMIT ≤ effective_requests_today u today
    · rw [(admit_quota_iff db u today now).mpr hq] at hok
      exact absurd hok (by simp)
    · rw [admit_of_quota_pass db u today now hq] at hok
      by_cases hr : rateLimitHit u.last_request_time now = true
      · rw [update_rate_reject db u.id today now u hfind hr] at hok
        exact absurd hok (by simp)
      · rw [Bool.not_eq_true, hlrt] at hr
        have hnot : ¬(t ≠ 0 ∧ now - t < 1) := by
          intro hc
          rw [(rateLimitHit_some_iff t now).mpr hc] at hr
          exact Bool.noConfusion hr
        have hnlt : ¬(now - t < 1) := fun hlt => hnot ⟨ht0, hlt⟩
        have h1le : (1 : ℚ) ≤ now - t := not_lt.mp hnlt
        linarith

theorem seq_accepted_run_witness :
    (∃ u', (runSeq "k6" 7 [10, 12]
        [⟨9, "k6", "free", 0, none, none⟩]).2 = [u'] ∧
      u'.requests_today = List.length [(10 : ℚ), 12] ∧
      u'.last_request_time = List.getLast? [(10 : ℚ), 12]) ∧
    ((10 : ℚ) < 11) :=
  ⟨seq_accepted_run_count_and_monotone.1 "k6" 7 [10, 12]
      ⟨9, "k6", "free", 0, none, none⟩
      (by decide) rfl (by decide) (by decide) (by decide),
   seq_accepted_run_count_and_monotone.2
      [⟨9, "k6", "free", 1, some 7, some 10⟩]
      ⟨9, "k6", "free", 1, some 7, some 10⟩ 7 11 10
      [⟨9, "k6", "free", 2, some 7, some 11⟩]
      (by decide) rfl (by decide) (by decide)⟩

/-- C7: a missing/empty credential and a credential matching no row each
fail with the 401 unauthenticated errors before any quota or rate-limit
evaluation, whatever the store and timestamp, and with no mutation of the
store; the unauthenticated, rate-limited and quota-exceeded rejections are
pairwise distinct (the two 429s carry different detail strings). -/
theorem unauthenticated_first_and_distinct :
    (∀ (db : List UserRecord) (today : Nat) (now : ℚ),
      verify_api_key db none today now = Except.error ApiError.missingKey) ∧
    (∀ (db : List UserRecord) (today : Nat) (now : ℚ),
      verify_api_key db (some "") today now =
        Except.error ApiError.missingKey) ∧
    (∀ (s : String → Nat → Nat → Option String) (db : List UserRecord)
        (req : TexteReq) (today : Nat) (now : ℚ),
      resumage s db none req today now =
        (Except.error ApiError.missingKey, db)) ∧
    (∀ (s : String → Nat → Nat → Option String) (db : List UserRecord)
        (key : String) (req : TexteReq) (today : Nat) (now : ℚ), key ≠ "" →
      db.find? (fun v => v.api_key == key) = none →
      verify_api_key db (some key) today now =
        Except.error ApiError.invalidKey ∧
      resumage s db (some key) req today now =
        (Except.error ApiError.invalidKey, db)) ∧
    (ApiError.missingKey.status = 401 ∧ ApiError.invalidKey.status = 401 ∧
      ApiError.rateLimited.status = 429 ∧
      ApiError.quotaExceeded.status = 429 ∧
      ApiError.rateLimited.detail ≠ ApiError.quotaExceeded.detail ∧
      ApiError.missingKey ≠ ApiError.rateLimited ∧
      ApiError.missingKey ≠ ApiError.quotaExceeded ∧
      ApiError.invalidKey ≠ ApiError.rateLimited ∧
      ApiError.invalidKey ≠ ApiError.quotaExceeded ∧
      ApiError.rateLimited ≠ ApiError.quotaExceeded) := by
  refine ⟨fun db today now => rfl, verify_empty_key, ?_, ?_, by decide⟩
  · intro s db req today now
    rfl
  · intro s db key req today now hk hfind
    have hv := verify_unknown_key db key today now hk hfind
    exact ⟨hv, by simp only [resumage, hv]⟩

theorem unauthenticated_witness :
    verify_api_key [⟨1, "ka", "free", 0, none, none⟩] (some "nope") 1 0 =
      Except.error ApiError.invalidKey ∧
    resumage alwaysSummarize [⟨1, "ka", "free", 0, none, none⟩]
      (some "nope") ⟨"txt", 130, 30⟩ 1 0 =
      (Except.error ApiError.invalidKey, [⟨1, "ka", "free", 0, none, none⟩]) :=
  unauthenticated_first_and_distinct.2.2.2.1 alwaysSummarize
    [⟨1, "ka", "free", 0, none, none⟩] "nope" ⟨"txt", 130, 30⟩ 1 0
    (by decide) (by decide)

/-- C9: the summarizer runs only after the gate allows — on any gate
rejection the endpoint's outcome is the gate error with the store untouched,
independently of the summarizer — and a summarization failure after
admission does not roll the committed store back. -/
theorem summarize_only_after_allow_no_rollback :
    (∀ (s1 s2 : String → Nat → Nat → Option String) (db : List UserRecord)
        (key : Option String) (req : TexteReq) (today : Nat) (now : ℚ)
        (e : ApiError),
      verify_api_key db key today now = Except.error e →
      resumage s1 db key req today now = (Except.error e, db) ∧
      resumage s1 db key req today now = resumage s2 db key req today now) ∧
    (∀ (s : String → Nat → Nat → Option String) (db : List UserRecord)
        (key : Option String) (req : TexteReq) (today : Nat) (now : ℚ)
        (user : UserRecord) (db2 : List UserRecord),
      verify_api_key db key today now = Except.ok (user, db2) →
      s req.content req.max_length req.min_length = none →
      resumage s db key req today now =
        (Except.error ApiError.summarizationError, db2)) := by
  constructor
  · intro s1 s2 db key req today now e hv
    constructor <;> simp only [resumage, hv]
  · intro s db key req today now user db2 hv hs
    simp only [resumage, hv, hs]

theorem summarize_only_after_allow_witness :
    (resumage alwaysSummarize [⟨1, "k9", "free", 0, none, none⟩]
        none ⟨"t", 130, 30⟩ 7 10 =
      (Except.error ApiError.missingKey, [⟨1, "k9", "free", 0, none, none⟩]) ∧
     resumage alwaysSummarize [⟨1, "k9", "free", 0, none, none⟩]
        none ⟨"t", 130, 30⟩ 7 10 =
      resumage failSummarize [⟨1, "k9", "free", 0, none, none⟩]
        none ⟨"t", 130, 30⟩ 7 10) ∧
    resumage failSummarize [⟨1, "k9", "free", 0, none, none⟩]
        (some "k9") ⟨"t", 130, 30⟩ 7 10 =
      (Except.error ApiError.summarizationError,
        [⟨1, "k9", "free", 1, some 7, some 10⟩]) :=
  ⟨summarize_only_after_allow_no_rollback.1 alwaysSummarize failSummarize
      [⟨1, "k9", "free", 0, none, none⟩] none ⟨"t", 130, 30⟩ 7 10
      ApiError.missingKey rfl,
   summarize_only_after_allow_no_rollback.2 failSummarize
      [⟨1, "k9", "free", 0, none, none⟩] (some "k9") ⟨"t", 130, 30⟩ 7 10
      ⟨1, "k9", "free", 0, none, none⟩
      [⟨1, "k9", "free", 1, some 7, some 10⟩] (by decide) rfl⟩
